import Mathlib

/-!
# Verification of the LIFE_SIMULATION battle core

Shallow embedding of the battle damage-resolution core of
`LIFE_SIMULATION/life_simulation.py`:

* `get_elemental_damage_multiplier` — the elemental type-effectiveness lookup;
* `resistance_accuracy_rule` — the accuracy/resistance floor rule;
* the container classes `LegendaryCreatureInventory`, `ItemInventory` and
  `BattleTeam` with their add/remove/set_leader operations.

Arbitrary-precision `mpf` values are modelled as rationals (`ℚ`).  Python
objects compared with default equality (`in`, `list.remove`) are modelled by a
`ref` field standing for the object identity; two distinct in-memory objects
have distinct `ref`s.  Element tags are Lean `String`s, exactly as in the
Python source.
-/

/-- Embedding of `get_elemental_damage_multiplier` (life_simulation.py lines
86-118).  Each branch is translated literally; in particular the `TERRA`
branch tests membership of `element2` in the one-element list
`["ELECTRIC, DARK"]`, exactly as the source does. -/
def get_elemental_damage_multiplier (element1 element2 : String) : ℚ :=
  if element1 = "TERRA" then
    if element2 ∈ ["ELECTRIC, DARK"] then 2
    else if element2 ∈ ["METAL", "WAR"] then 1/2 else 1
  else if element1 = "FLAME" then
    if element2 ∈ ["NATURE", "ICE"] then 2
    else if element2 ∈ ["SEA", "WAR"] then 1/2 else 1
  else if element1 = "SEA" then
    if element2 ∈ ["FLAME", "WAR"] then 2
    else if element2 ∈ ["NATURE", "ELECTRIC"] then 1/2 else 1
  else if element1 = "NATURE" then
    if element2 ∈ ["SEA", "LIGHT"] then 2
    else if element2 ∈ ["FLAME", "ICE"] then 1/2 else 1
  else if element1 = "ELECTRIC" then
    if element2 ∈ ["SEA", "METAL"] then 2
    else if element2 ∈ ["TERRA", "LIGHT"] then 1/2 else 1
  else if element1 = "ICE" then
    if element2 ∈ ["NATURE", "WAR"] then 2
    else if element2 ∈ ["FLAME", "METAL"] then 1/2 else 1
  else if element1 = "METAL" then
    if element2 ∈ ["TERRA", "ICE"] then 2
    else if element2 ∈ ["ELECTRIC", "DARK"] then 1/2 else 1
  else if element1 = "DARK" then
    if element2 ∈ ["METAL", "LIGHT"] then 2
    else if element2 = "TERRA" then 1/2 else 1
  else if element1 = "LIGHT" then
    if element2 ∈ ["ELECTRIC", "DARK"] then 2
    else if element2 = "NATURE" then 1/2 else 1
  else if element1 = "WAR" then
    if element2 ∈ ["TERRA", "FLAME"] then 2
    else if element2 ∈ ["SEA", "ICE"] then 1/2 else 1
  else if element1 = "PURE" then
    if element2 = "LEGEND" then 2
    else if element2 = "PRIMAL" then 1/2 else 1
  else if element1 = "LEGEND" then
    if element2 = "PRIMAL" then 2
    else if element2 = "PURE" then 1/2 else 1
  else if element1 = "PRIMAL" then
    if element2 = "PURE" then 2
    else if element2 = "LEGEND" then 1/2 else 1
  else if element1 = "WIND" then
    if element2 = "WIND" then 2 else 1
  else 1

/-- Embedding of `resistance_accuracy_rule` (life_simulation.py lines
121-125). -/
def resistance_accuracy_rule (accuracy resistance : ℚ) : ℚ :=
  if resistance - accuracy ≤ 15/100 then 15/100
  else resistance - accuracy

/-- The 14 attacking-element tags recognized by the multiplier lookup. -/
def recognizedAttackingElements : List String :=
  ["TERRA", "FLAME", "SEA", "NATURE", "ELECTRIC", "ICE", "METAL",
   "DARK", "LIGHT", "WAR", "PURE", "LEGEND", "PRIMAL", "WIND"]

/-- The six ancient-world element tags. -/
def ancientWorldElements : List String :=
  ["BEAUTY", "MAGIC", "CHAOS", "HAPPY", "DREAM", "SOUL"]

/-- A legendary creature, as used by the container classes.  The Python class
`LegendaryCreature` is a stub; `BattleTeam.add_legendary_creature` accesses a
`legendary_creature_id` attribute, and Python default equality (used by `in`
and `list.remove`) is object identity, modelled by the `ref` field: distinct
in-memory objects carry distinct `ref`s. -/
structure LegendaryCreature where
  ref : Nat
  legendary_creature_id : Nat
deriving DecidableEq, Repr

/-- An item, as stored by `ItemInventory`.  The Python `Item` class is a stub
compared by object identity, modelled by the `ref` field. -/
structure Item where
  ref : Nat
deriving DecidableEq, Repr

/-- Embedding of `LegendaryCreatureInventory` (life_simulation.py lines
740-780): a plain list of creatures. -/
structure LegendaryCreatureInventory where
  legendary_creatures : List LegendaryCreature
deriving DecidableEq, Repr

/-- `LegendaryCreatureInventory.add_legendary_creature` (lines 749-751):
unconditionally appends and returns `None` (no success flag), so the result
is just the updated inventory. -/
def LegendaryCreatureInventory.add_legendary_creature
    (inv : LegendaryCreatureInventory) (legendary_creature : LegendaryCreature) :
    LegendaryCreatureInventory :=
  ⟨inv.legendary_creatures ++ [legendary_creature]⟩

/-- `LegendaryCreatureInventory.remove_legendary_creature` (lines 753-758):
removes the first occurrence by object equality, returning the updated
inventory and a success flag. -/
def LegendaryCreatureInventory.remove_legendary_creature
    (inv : LegendaryCreatureInventory) (legendary_creature : LegendaryCreature) :
    LegendaryCreatureInventory × Bool :=
  if legendary_creature ∈ inv.legendary_creatures then
    (⟨inv.legendary_creatures.erase legendary_creature⟩, true)
  else (inv, false)

/-- Embedding of `ItemInventory` (life_simulation.py lines 783-823). -/
structure ItemInventory where
  items : List Item
deriving DecidableEq, Repr

/-- `ItemInventory.add_item` (lines 792-794): unconditionally appends and
returns `None` (no success flag). -/
def ItemInventory.add_item (inv : ItemInventory) (item : Item) : ItemInventory :=
  ⟨inv.items ++ [item]⟩

/-- `ItemInventory.remove_item` (lines 796-801). -/
def ItemInventory.remove_item (inv : ItemInventory) (item : Item) :
    ItemInventory × Bool :=
  if item ∈ inv.items then (⟨inv.items.erase item⟩, true)
  else (inv, false)

/-- `BattleTeam.MAX_LEGENDARY_CREATURES` (line 841). -/
def MAX_LEGENDARY_CREATURES : Nat := 5

/-- Embedding of `BattleTeam` (life_simulation.py lines 836-899): a list of
creatures plus a `leader` field (a creature or `None`). -/
structure BattleTeam where
  legendary_creatures : List LegendaryCreature
  leader : Option LegendaryCreature
deriving DecidableEq, Repr

/-- `BattleTeam.__init__` (lines 843-850): takes an initial list (default
empty); keeps it only if its length is at most `MAX_LEGENDARY_CREATURES`,
otherwise starts from the empty list; `leader` is `None` when the kept list
is empty and its first element otherwise. -/
def BattleTeam.mkBattleTeam (legendary_creatures : List LegendaryCreature) : BattleTeam :=
  let kept := if legendary_creatures.length ≤ MAX_LEGENDARY_CREATURES
              then legendary_creatures else []
  ⟨kept, kept.head?⟩

/-- `BattleTeam.set_leader` (lines 852-857): the candidate defaults to
`None`; when the candidate is not a current member, or the team is empty, or
the candidate is `None`, the leader is set to `None`; otherwise to the
candidate.  A `None` candidate is never a member, so the first disjunct
already covers it. -/
def BattleTeam.set_leader (team : BattleTeam) (leader : Option LegendaryCreature) :
    BattleTeam :=
  match leader with
  | none => { team with leader := none }
  | some candidate =>
      if candidate ∉ team.legendary_creatures ∨ team.legendary_creatures.length = 0 then
        { team with leader := none }
      else
        { team with leader := some candidate }

/-- `BattleTeam.add_legendary_creature` (lines 859-869): rejects when the
team is at capacity or when a member already carries the same
`legendary_creature_id`; otherwise appends and calls `set_leader()` with the
default `None` candidate. -/
def BattleTeam.add_legendary_creature (team : BattleTeam)
    (legendary_creature : LegendaryCreature) : BattleTeam × Bool :=
  if team.legendary_creatures.length < MAX_LEGENDARY_CREATURES then
    if legendary_creature.legendary_creature_id ∉
        team.legendary_creatures.map LegendaryCreature.legendary_creature_id then
      (BattleTeam.set_leader
        { team with legendary_creatures := team.legendary_creatures ++ [legendary_creature] }
        none, true)
    else (team, false)
  else (team, false)

/-- `BattleTeam.remove_legendary_creature` (lines 871-877): membership and
removal use Python default (object) equality; on success calls `set_leader()`
with the default `None` candidate. -/
def BattleTeam.remove_legendary_creature (team : BattleTeam)
    (legendary_creature : LegendaryCreature) : BattleTeam × Bool :=
  if legendary_creature ∈ team.legendary_creatures then
    (BattleTeam.set_leader
      { team with legendary_creatures := team.legendary_creatures.erase legendary_creature }
      none, true)
  else (team, false)

/-- C1: the claim says `get_elemental_damage_multiplier` returns 2 for
attacker TERRA against defenders ELECTRIC and DARK.  The code instead tests
membership of the defender in the one-element list `["ELECTRIC, DARK"]`
(a single malformed string literal), so ELECTRIC and DARK actually yield 1;
only the literal string "ELECTRIC, DARK" yields 2.  The weak (0.5) and
neutral (1) parts of the claim do hold.  This theorem evaluates the embedded
code at the relevant inputs. -/
theorem C1_terra_branch_code_eval :
    get_elemental_damage_multiplier "TERRA" "ELECTRIC" = 1 ∧
    get_elemental_damage_multiplier "TERRA" "DARK" = 1 ∧
    get_elemental_damage_multiplier "TERRA" "ELECTRIC, DARK" = 2 ∧
    get_elemental_damage_multiplier "TERRA" "METAL" = 1/2 ∧
    get_elemental_damage_multiplier "TERRA" "WAR" = 1/2 ∧
    get_elemental_damage_multiplier "TERRA" "SEA" = 1 := by
  refine ⟨?_, ?_, ?_, ?_, ?_, ?_⟩ <;> simp [get_elemental_damage_multiplier]

/-- C4: `resistance_accuracy_rule` returns exactly 0.15 when
`resistance - accuracy ≤ 0.15`, returns the raw difference otherwise, and is
always at least 0.15. -/
theorem C4_resistance_accuracy_rule_floor (accuracy resistance : ℚ) :
    (resistance - accuracy ≤ 15/100 →
      resistance_accuracy_rule accuracy resistance = 15/100) ∧
    (¬ resistance - accuracy ≤ 15/100 →
      resistance_accuracy_rule accuracy resistance = resistance - accuracy) ∧
    15/100 ≤ resistance_accuracy_rule accuracy resistance := by
  unfold resistance_accuracy_rule
  split_ifs with h
  · exact ⟨fun _ => rfl, fun h2 => absurd h h2, le_refl _⟩
  · exact ⟨fun h2 => absurd h2 h, fun _ => rfl, le_of_lt (not_le.mp h)⟩

/-- C4 witness: the floor applies at maximum accuracy and minimum
resistance; without attacker accuracy a full resistance passes through. -/
theorem C4_resistance_accuracy_rule_floor_witness :
    resistance_accuracy_rule 1 (15/100) = 15/100 ∧
    resistance_accuracy_rule 0 1 = 1 := by
  constructor
  · exact (C4_resistance_accuracy_rule_floor 1 (15/100)).1 (by norm_num)
  · have h := (C4_resistance_accuracy_rule_floor 0 1).2.1 (by norm_num)
    simpa using h

/-- Auxiliary: an `if` whose branches both lie in {2, 0.5, 1} lies in
{2, 0.5, 1}. -/
lemma ite_in_multiplier_range (p : Prop) [Decidable p] (a b : ℚ)
    (ha : a = 2 ∨ a = 1/2 ∨ a = 1) (hb : b = 2 ∨ b = 1/2 ∨ b = 1) :
    (if p then a else b) = 2 ∨ (if p then a else b) = 1/2 ∨
    (if p then a else b) = 1 := by
  split_ifs <;> assumption

/-- C5: `get_elemental_damage_multiplier` is total and its value is always
exactly one of 2, 0.5 and 1. -/
theorem C5_multiplier_total_range (element1 element2 : String) :
    get_elemental_damage_multiplier element1 element2 = 2 ∨
    get_elemental_damage_multiplier element1 element2 = 1/2 ∨
    get_elemental_damage_multiplier element1 element2 = 1 := by
  unfold get_elemental_damage_multiplier
  repeat' first
    | apply ite_in_multiplier_range
    | norm_num

set_option maxHeartbeats 2000000 in
/-- C6: each of the six ancient-world attacking elements yields multiplier 1
against every defending element. -/
theorem C6_ancient_world_neutral (element1 : String)
    (h : element1 ∈ ancientWorldElements) (element2 : String) :
    get_elemental_damage_multiplier element1 element2 = 1 := by
  simp only [ancientWorldElements, List.mem_cons, List.not_mem_nil, or_false] at h
  rcases h with rfl | rfl | rfl | rfl | rfl | rfl <;>
    simp [get_elemental_damage_multiplier]

/-- C6 witness: BEAUTY is an ancient-world element and is neutral against
SOUL. -/
theorem C6_ancient_world_neutral_witness :
    "BEAUTY" ∈ ancientWorldElements ∧
    get_elemental_damage_multiplier "BEAUTY" "SOUL" = 1 :=
  ⟨by decide, C6_ancient_world_neutral "BEAUTY" (by decide) "SOUL"⟩

/-- C7 counterexample: the lookup is case-sensitive, not case-normalized:
the lower-case attacking tag "flame" yields 1 against NATURE while "FLAME"
yields 2, refuting the claimed case-insensitivity at this input. -/
theorem C7_counterexample :
    get_elemental_damage_multiplier "flame" "NATURE" = 1 ∧
    get_elemental_damage_multiplier "FLAME" "NATURE" = 2 ∧
    get_elemental_damage_multiplier "flame" "NATURE" ≠
      get_elemental_damage_multiplier "FLAME" "NATURE" := by
  refine ⟨?_, ?_, ?_⟩ <;> simp [get_elemental_damage_multiplier]

set_option maxHeartbeats 2000000 in
/-- C7 (amended): the lookup is case-sensitive; any attacking tag other than
the 14 recognized upper-case active tags — lower-case or mixed-case variants
included — falls through to the neutral multiplier 1 for every defender,
rather than failing. -/
theorem C7_unrecognized_attacker_neutral (element1 : String)
    (h : element1 ∉ recognizedAttackingElements) (element2 : String) :
    get_elemental_damage_multiplier element1 element2 = 1 := by
  simp only [recognizedAttackingElements, List.mem_cons, List.not_mem_nil, or_false,
    not_or] at h
  obtain ⟨h1, h2, h3, h4, h5, h6, h7, h8, h9, h10, h11, h12, h13, h14⟩ := h
  simp [get_elemental_damage_multiplier, h1, h2, h3, h4, h5, h6, h7, h8, h9, h10,
    h11, h12, h13, h14]

/-- C7 witness: the lower-case tag "flame" is unrecognized and neutral
against NATURE. -/
theorem C7_unrecognized_attacker_neutral_witness :
    "flame" ∉ recognizedAttackingElements ∧
    get_elemental_damage_multiplier "flame" "NATURE" = 1 :=
  ⟨by decide, C7_unrecognized_attacker_neutral "flame" (by decide) "NATURE"⟩

/-- Auxiliary: `set_leader` with the default `None` candidate always leaves
the leader `None`. -/
lemma set_leader_none (team : BattleTeam) :
    (team.set_leader none).leader = none := rfl

/-- C2 counterexample: adding a creature to an empty team succeeds and leaves
the team non-empty, yet the leader is `None`, not the first member, because
`add_legendary_creature` calls `set_leader()` with the default `None`
candidate. -/
theorem C2_counterexample :
    ((BattleTeam.mkBattleTeam []).add_legendary_creature ⟨0, 0⟩).2 = true ∧
    ((BattleTeam.mkBattleTeam []).add_legendary_creature ⟨0, 0⟩).1.legendary_creatures
      = [⟨0, 0⟩] ∧
    ((BattleTeam.mkBattleTeam []).add_legendary_creature ⟨0, 0⟩).1.leader = none :=
  ⟨rfl, rfl, rfl⟩

/-- C2 (amended): after every successful `add_legendary_creature` or
`remove_legendary_creature` the leader is reset to `None` (never to the first
member), because both operations call `set_leader()` with the default `None`
candidate; only `__init__` sets the leader to the first member. -/
theorem C2_leader_cleared_on_mutation (team : BattleTeam) (c : LegendaryCreature) :
    ((team.add_legendary_creature c).2 = true →
      (team.add_legendary_creature c).1.leader = none) ∧
    ((team.remove_legendary_creature c).2 = true →
      (team.remove_legendary_creature c).1.leader = none) := by
  constructor
  · intro h
    unfold BattleTeam.add_legendary_creature at h ⊢
    split_ifs at h ⊢
    simp_all [set_leader_none]
  · intro h
    unfold BattleTeam.remove_legendary_creature at h ⊢
    split_ifs at h ⊢
    simp_all [set_leader_none]

/-- C2 witness: applying the amended statement to a successful add on the
empty team. -/
theorem C2_leader_cleared_on_mutation_witness :
    ((BattleTeam.mkBattleTeam []).add_legendary_creature ⟨0, 0⟩).1.leader = none :=
  (C2_leader_cleared_on_mutation (BattleTeam.mkBattleTeam []) ⟨0, 0⟩).1 rfl

/-- C3 counterexample: `LegendaryCreatureInventory.add_legendary_creature`
appends unconditionally (returning `None`, no failure signal), so adding the
same creature twice grows the inventory to size 2 instead of leaving the size
unchanged. -/
theorem C3_counterexample :
    (((LegendaryCreatureInventory.mk []).add_legendary_creature
        ⟨0, 0⟩).add_legendary_creature ⟨0, 0⟩).legendary_creatures.length = 2 ∧
    2 ≠ 1 :=
  ⟨rfl, by decide⟩

/-- C3 (amended): only `BattleTeam` follows the unique-membership pattern —
adding a creature whose `legendary_creature_id` is already present returns
failure and leaves the team unchanged; `LegendaryCreatureInventory` and
`ItemInventory` append unconditionally with no duplicate check and no success
flag, so duplicates accumulate. -/
theorem C3_duplicate_handling :
    (∀ (team : BattleTeam) (c : LegendaryCreature),
      c.legendary_creature_id ∈
        team.legendary_creatures.map LegendaryCreature.legendary_creature_id →
      team.add_legendary_creature c = (team, false)) ∧
    (∀ (inv : LegendaryCreatureInventory) (c : LegendaryCreature),
      (inv.add_legendary_creature c).legendary_creatures
        = inv.legendary_creatures ++ [c]) ∧
    (∀ (inv : ItemInventory) (i : Item),
      (inv.add_item i).items = inv.items ++ [i]) := by
  refine ⟨fun team c h => ?_, fun inv c => rfl, fun inv i => rfl⟩
  unfold BattleTeam.add_legendary_creature
  by_cases hlen : team.legendary_creatures.length < MAX_LEGENDARY_CREATURES
  · rw [if_pos hlen, if_neg (not_not_intro h)]
  · rw [if_neg hlen]

/-- C3 witness: a team holding a creature with id 5 rejects a distinct
creature object with the same id. -/
theorem C3_duplicate_handling_witness :
    (⟨1, 5⟩ : LegendaryCreature).legendary_creature_id ∈
      (⟨[⟨0, 5⟩], none⟩ : BattleTeam).legendary_creatures.map
        LegendaryCreature.legendary_creature_id ∧
    (⟨[⟨0, 5⟩], none⟩ : BattleTeam).add_legendary_creature ⟨1, 5⟩
      = (⟨[⟨0, 5⟩], none⟩, false) :=
  ⟨by decide, C3_duplicate_handling.1 ⟨[⟨0, 5⟩], none⟩ ⟨1, 5⟩ (by decide)⟩

/-- C8: every rejected `BattleTeam` mutation returns `false` and leaves the
team (membership and leader) unchanged: an add at full capacity, and a remove
of an absent creature. -/
theorem C8_rejected_mutations_no_change (team : BattleTeam) (c : LegendaryCreature) :
    (team.legendary_creatures.length = MAX_LEGENDARY_CREATURES →
      team.add_legendary_creature c = (team, false)) ∧
    (c ∉ team.legendary_creatures →
      team.remove_legendary_creature c = (team, false)) := by
  constructor
  · intro h
    unfold BattleTeam.add_legendary_creature
    have hlt : ¬ team.legendary_creatures.length < MAX_LEGENDARY_CREATURES := by
      rw [h]
      exact lt_irrefl _
    rw [if_neg hlt]
  · intro h
    unfold BattleTeam.remove_legendary_creature
    rw [if_neg h]

/-- C8 witness: a 6th add on a 5-member team fails without change, and a
remove on the empty team fails without change. -/
theorem C8_rejected_mutations_no_change_witness :
    ((⟨[⟨0, 0⟩, ⟨1, 1⟩, ⟨2, 2⟩, ⟨3, 3⟩, ⟨4, 4⟩], none⟩ : BattleTeam).add_legendary_creature
        ⟨5, 5⟩
      = (⟨[⟨0, 0⟩, ⟨1, 1⟩, ⟨2, 2⟩, ⟨3, 3⟩, ⟨4, 4⟩], none⟩, false)) ∧
    ((⟨[], none⟩ : BattleTeam).remove_legendary_creature ⟨0, 0⟩
      = (⟨[], none⟩, false)) :=
  ⟨(C8_rejected_mutations_no_change ⟨[⟨0, 0⟩, ⟨1, 1⟩, ⟨2, 2⟩, ⟨3, 3⟩, ⟨4, 4⟩], none⟩
      ⟨5, 5⟩).1 rfl,
   (C8_rejected_mutations_no_change ⟨[], none⟩ ⟨0, 0⟩).2 (by decide)⟩

/-- C9: constructing a `BattleTeam` from a list of more than 5 creatures
silently discards the whole list, yielding an empty team with leader `None`. -/
theorem C9_oversized_init_discards (legendary_creatures : List LegendaryCreature)
    (h : MAX_LEGENDARY_CREATURES < legendary_creatures.length) :
    BattleTeam.mkBattleTeam legendary_creatures = ⟨[], none⟩ := by
  unfold BattleTeam.mkBattleTeam
  simp [if_neg (not_le.mpr h)]

/-- C9 witness: a 6-element initial list produces the empty team with no
leader. -/
theorem C9_oversized_init_discards_witness :
    MAX_LEGENDARY_CREATURES <
      ([⟨0, 0⟩, ⟨1, 1⟩, ⟨2, 2⟩, ⟨3, 3⟩, ⟨4, 4⟩, ⟨5, 5⟩] : List LegendaryCreature).length ∧
    BattleTeam.mkBattleTeam [⟨0, 0⟩, ⟨1, 1⟩, ⟨2, 2⟩, ⟨3, 3⟩, ⟨4, 4⟩, ⟨5, 5⟩]
      = ⟨[], none⟩ :=
  ⟨by decide,
   C9_oversized_init_discards [⟨0, 0⟩, ⟨1, 1⟩, ⟨2, 2⟩, ⟨3, 3⟩, ⟨4, 4⟩, ⟨5, 5⟩] (by decide)⟩

/-- C10: removal is keyed by object equality while add is keyed by
`legendary_creature_id`: a distinct creature object sharing its id with a
member is not removable (failure, team unchanged), yet an add of that same
object is rejected as a duplicate. -/
theorem C10_removal_by_object_identity (team : BattleTeam)
    (member intruder : LegendaryCreature)
    (hmem : member ∈ team.legendary_creatures)
    (habs : intruder ∉ team.legendary_creatures)
    (hid : intruder.legendary_creature_id = member.legendary_creature_id) :
    team.remove_legendary_creature intruder = (team, false) ∧
    (team.add_legendary_creature intruder).2 = false := by
  constructor
  · unfold BattleTeam.remove_legendary_creature
    rw [if_neg habs]
  · unfold BattleTeam.add_legendary_creature
    have hdup : intruder.legendary_creature_id ∈
        team.legendary_creatures.map LegendaryCreature.legendary_creature_id := by
      rw [hid]
      exact List.mem_map_of_mem LegendaryCreature.legendary_creature_id hmem
    by_cases hlen : team.legendary_creatures.length < MAX_LEGENDARY_CREATURES
    · rw [if_pos hlen, if_neg (not_not_intro hdup)]
    · rw [if_neg hlen]

/-- C10 witness: team `[⟨0, 7⟩]`, intruder `⟨1, 7⟩` (distinct object, same
id): remove fails leaving the team unchanged, and add rejects it. -/
theorem C10_removal_by_object_identity_witness :
    ((⟨[⟨0, 7⟩], none⟩ : BattleTeam).remove_legendary_creature ⟨1, 7⟩
      = (⟨[⟨0, 7⟩], none⟩, false)) ∧
    ((⟨[⟨0, 7⟩], none⟩ : BattleTeam).add_legendary_creature ⟨1, 7⟩).2 = false :=
  C10_removal_by_object_identity ⟨[⟨0, 7⟩], none⟩ ⟨0, 7⟩ ⟨1, 7⟩
    (by decide) (by decide) rfl
